import Mathlib

/-!
Formal model of the MedBE-PharmaFlow inventory core.

The definitions below are a shallow embedding of the JavaScript source:
the `inventory`, `sales`, `sale_items`, `stock_movements`,
`purchase_orders` and `purchase_order_items` tables become lists of
records inside a `DB` value, SQL SELECT/UPDATE/INSERT statements become
list lookups and maps, and the `transaction` helper of
`src/config/database.js` becomes a combinator that keeps the original
state whenever the wrapped computation throws (BEGIN / COMMIT /
ROLLBACK).  Monetary amounts are modelled as rationals, dates as integer
day numbers, quantities as integers.
-/

namespace PharmaFlow

/-- Row of the `products` table (the columns the core reads). -/
structure Product where
  product_id : Nat
  product_name : String
  is_active : Bool
  requires_prescription : Bool
  tax_rate : Rat
  deriving Repr, DecidableEq

/-- Row of the `inventory` table: one batch of one product. -/
structure Inventory where
  inventory_id : Nat
  product_id : Nat
  supplier_id : Nat
  batch_number : String
  lot_number : String
  quantity_on_hand : Int
  quantity_reserved : Int
  unit_cost : Rat
  expiration_date : Int
  received_date : Int
  status : String
  deriving Repr, DecidableEq

/-- Derived column `quantity_available = quantity_on_hand - quantity_reserved`
(spec §3 invariant 2; the schema file itself is not part of the sources). -/
def Inventory.quantity_available (i : Inventory) : Int :=
  i.quantity_on_hand - i.quantity_reserved

/-- Row of the `sales` table (the columns the core touches).
`payment_status` defaults to `"completed"` on insert.
Modelled from the spec: the SQL schema holding the column default is not
among the sources; `processRefund` only accepts sales whose
`payment_status` is `completed`, which is the state a freshly created
sale must be in for the refund flow of §6 to apply to it. -/
structure SaleRow where
  sale_id : Nat
  customer_id : Option Nat
  subtotal : Rat
  tax_amount : Rat
  total_amount : Rat
  payment_method : String
  payment_status : String
  notes : String
  deriving Repr, DecidableEq

/-- Row of the `sale_items` table. -/
structure SaleItem where
  sale_item_id : Nat
  sale_id : Nat
  product_id : Nat
  inventory_id : Nat
  quantity : Int
  unit_price : Rat
  discount_percentage : Rat
  discount_amount : Rat
  line_total : Rat
  expiration_date : Int
  batch_number : String
  deriving Repr, DecidableEq

/-- Row of the `stock_movements` table. -/
structure StockMovement where
  movement_id : Nat
  inventory_id : Nat
  product_id : Nat
  movement_type : String
  quantity_change : Int
  quantity_before : Int
  quantity_after : Int
  unit_cost : Option Rat
  reference_id : Option Nat
  reference_type : Option String
  reason : String
  performed_by : Nat
  deriving Repr, DecidableEq

/-- Row of the `purchase_orders` table (the columns `receiveGoods` reads). -/
structure PurchaseOrder where
  po_id : Nat
  supplier_id : Nat
  status : String
  deriving Repr, DecidableEq

/-- Row of the `purchase_order_items` table. -/
structure POItem where
  po_item_id : Nat
  po_id : Nat
  product_id : Nat
  quantity_ordered : Int
  quantity_received : Int
  unit_cost : Rat
  status : String
  deriving Repr, DecidableEq

/-- The persistent state: the tables the core reads and writes, plus the
next value of each serial primary-key sequence. -/
structure DB where
  products : List Product
  inventory : List Inventory
  sales : List SaleRow
  sale_items : List SaleItem
  stock_movements : List StockMovement
  purchase_orders : List PurchaseOrder
  purchase_order_items : List POItem
  nextSaleId : Nat
  nextSaleItemId : Nat
  nextInventoryId : Nat
  nextMovementId : Nat
  deriving Repr, DecidableEq

/-- The `transaction` helper of `src/config/database.js`: BEGIN, run the
callback, COMMIT on success; on any thrown error ROLLBACK, so the
persistent state is exactly the state from before the callback ran. -/
def transaction (f : DB → Except String (DB × α)) (db : DB) :
    DB × Except String α :=
  match f db with
  | .ok (db2, a) => (db2, .ok a)
  | .error e => (db, .error e)

/-- UPDATE inventory SET quantity_on_hand = v WHERE inventory_id = id. -/
def setOnHand (l : List Inventory) (id : Nat) (v : Int) : List Inventory :=
  l.map (fun i =>
    if i.inventory_id == id then { i with quantity_on_hand := v } else i)

/-- UPDATE inventory SET quantity_on_hand = quantity_on_hand + d
WHERE inventory_id = id. -/
def addOnHand (l : List Inventory) (id : Nat) (d : Int) : List Inventory :=
  l.map (fun i =>
    if i.inventory_id == id then
      { i with quantity_on_hand := i.quantity_on_hand + d }
    else i)

/-- UPDATE inventory SET quantity_reserved = quantity_reserved + d
WHERE inventory_id = id. -/
def addReserved (l : List Inventory) (id : Nat) (d : Int) : List Inventory :=
  l.map (fun i =>
    if i.inventory_id == id then
      { i with quantity_reserved := i.quantity_reserved + d }
    else i)

/-- SELECT from inventory WHERE inventory_id = id AND status = active. -/
def findActive (l : List Inventory) (id : Nat) : Option Inventory :=
  l.find? (fun i => i.inventory_id == id && i.status == "active")

/-- Total `quantity_on_hand` over a list of batches. -/
def sumOnHand (l : List Inventory) : Int :=
  (l.map Inventory.quantity_on_hand).sum

/-! ## SalesController.createSale (src/unnamed/part_001) -/

/-- One element of the `items` array of a sale request. -/
structure SaleItemInput where
  productId : Nat
  quantity : Int
  unitPrice : Rat
  discountPercentage : Rat
  inventoryId : Option Nat
  deriving Repr, DecidableEq

/-- The body of a sale request. -/
structure SaleInput where
  customerId : Option Nat
  items : List SaleItemInput
  paymentMethod : String
  prescriptionNumber : Option String
  insuranceClaimAmount : Rat
  customerPaymentAmount : Rat
  notes : String
  deriving Repr, DecidableEq

/-- An entry of the `processedItems` array built by the sale loop. -/
structure ProcessedItem where
  productId : Nat
  inventoryId : Nat
  quantity : Int
  unitPrice : Rat
  discountPercentage : Rat
  discountAmount : Rat
  lineTotal : Rat
  expirationDate : Int
  batchNumber : String
  deriving Repr, DecidableEq

/-- First element of the list whose `expiration_date` is minimal:
the row returned by ORDER BY expiration_date ASC LIMIT 1. -/
def firstMinExpiry : List Inventory → Option Inventory
  | [] => none
  | i :: is =>
    match firstMinExpiry is with
    | none => some i
    | some j => if j.expiration_date < i.expiration_date then some j else some i

/-- Rows satisfying
product_id = pid AND status = active AND quantity_available >= qty. -/
def eligibleBatches (db : DB) (productId : Nat) (qty : Int) : List Inventory :=
  db.inventory.filter (fun i =>
    i.product_id == productId && i.status == "active" &&
      decide (qty ≤ i.quantity_available))

/-- The FIFO inventory check of `createSale`: the single earliest-expiring
active batch whose `quantity_available` covers the whole requested
quantity (ORDER BY expiration_date ASC LIMIT 1). -/
def fifoCandidate (db : DB) (productId : Nat) (qty : Int) : Option Inventory :=
  firstMinExpiry (eligibleBatches db productId qty)

/-- The pinned-batch inventory check of `createSale`: the requested batch,
provided it belongs to the product, is active, and covers the whole
requested quantity. -/
def pinnedCandidate (db : DB) (iid productId : Nat) (qty : Int) :
    Option Inventory :=
  db.inventory.find? (fun i =>
    i.inventory_id == iid && i.product_id == productId &&
      i.status == "active" && decide (qty ≤ i.quantity_available))

/-- The per-item loop of `createSale`: validate the item, look up the
product, run the inventory check, reserve the chosen batch
(`quantity_reserved += qty`) and accumulate totals and processed items. -/
def createSaleLoop (presc : Option String) :
    List SaleItemInput → DB → Rat → Rat → List ProcessedItem →
    Except String (DB × Rat × Rat × List ProcessedItem)
  | [], db, sub, tax, acc => .ok (db, sub, tax, acc)
  | it :: rest, db, sub, tax, acc =>
    if it.productId == 0 || decide (it.quantity ≤ 0) then
      .error "Invalid item: productId and positive quantity required"
    else
      match db.products.find? (fun p =>
          p.product_id == it.productId && p.is_active) with
      | none =>
        .error ("Product with ID " ++ toString it.productId ++
          " not found or inactive")
      | some product =>
        if product.requires_prescription && presc.isNone then
          .error ("Prescription required for product: " ++ product.product_name)
        else
          match (match it.inventoryId with
                 | some iid => pinnedCandidate db iid it.productId it.quantity
                 | none => fifoCandidate db it.productId it.quantity) with
          | none =>
            .error ("Insufficient inventory for product: " ++
              product.product_name)
          | some inv =>
            let db1 := { db with
              inventory := addReserved db.inventory inv.inventory_id it.quantity }
            let lineSubtotal := it.unitPrice * (it.quantity : Rat)
            let discountAmount := lineSubtotal * it.discountPercentage / 100
            let lineTotal := lineSubtotal - discountAmount
            let lineTaxAmount := lineTotal * product.tax_rate / 100
            createSaleLoop presc rest db1 (sub + lineTotal) (tax + lineTaxAmount)
              (acc ++ [{ productId := it.productId,
                         inventoryId := inv.inventory_id,
                         quantity := it.quantity,
                         unitPrice := it.unitPrice,
                         discountPercentage := it.discountPercentage,
                         discountAmount := discountAmount,
                         lineTotal := lineTotal,
                         expirationDate := inv.expiration_date,
                         batchNumber := inv.batch_number }])

/-- The commit loop of `createSale`: insert one `sale_items` row per
processed item and apply
`quantity_on_hand -= qty, quantity_reserved -= qty` on its batch.
No `stock_movements` row is written here. -/
def commitSaleItems (saleId : Nat) : List ProcessedItem → DB → DB
  | [], db => db
  | p :: rest, db =>
    let row : SaleItem := {
      sale_item_id := db.nextSaleItemId, sale_id := saleId,
      product_id := p.productId, inventory_id := p.inventoryId,
      quantity := p.quantity, unit_price := p.unitPrice,
      discount_percentage := p.discountPercentage,
      discount_amount := p.discountAmount, line_total := p.lineTotal,
      expiration_date := p.expirationDate, batch_number := p.batchNumber }
    let inv2 := db.inventory.map (fun i =>
      if i.inventory_id == p.inventoryId then
        { i with quantity_on_hand := i.quantity_on_hand - p.quantity,
                 quantity_reserved := i.quantity_reserved - p.quantity }
      else i)
    commitSaleItems saleId rest
      { db with sale_items := db.sale_items ++ [row],
                nextSaleItemId := db.nextSaleItemId + 1,
                inventory := inv2 }

/-- The `sales` row inserted by `createSale`, with `payment_status`
filled by the column default `completed`. -/
def newSaleRow (inp : SaleInput) (saleId : Nat) (subtotal totalTaxAmount : Rat) :
    SaleRow :=
  { sale_id := saleId, customer_id := inp.customerId,
    subtotal := subtotal, tax_amount := totalTaxAmount,
    total_amount := subtotal + totalTaxAmount,
    payment_method := inp.paymentMethod,
    payment_status := "completed", notes := inp.notes }

/-- The transaction callback of `createSale`: process all items, validate
the payment total against the computed total (float tolerance 0.01),
insert the `sales` row, then commit every line. -/
def createSaleTx (inp : SaleInput) (db : DB) : Except String (DB × Nat) :=
  match createSaleLoop inp.prescriptionNumber inp.items db 0 0 [] with
  | .error e => .error e
  | .ok (db1, subtotal, totalTaxAmount, processedItems) =>
    if (1 : Rat)/100 < |inp.insuranceClaimAmount + inp.customerPaymentAmount
        - (subtotal + totalTaxAmount)| then
      .error "Payment amounts do not match total amount"
    else
      .ok (commitSaleItems db1.nextSaleId processedItems
        { db1 with
          sales := db1.sales ++ [newSaleRow inp db1.nextSaleId subtotal totalTaxAmount],
          nextSaleId := db1.nextSaleId + 1 }, db1.nextSaleId)

/-- The valid payment methods accepted by `createSale`. -/
def validPaymentMethods : List String :=
  ["cash", "card", "insurance", "check", "digital"]

/-- `SalesController.createSale`: request validation, then the
transaction; on any thrown error the state rolls back unchanged. -/
def createSale (inp : SaleInput) (db : DB) : DB × Except String Nat :=
  if inp.items.isEmpty then
    (db, .error "At least one item is required for the sale")
  else if inp.paymentMethod == "" then
    (db, .error "Payment method is required")
  else if !(validPaymentMethods.contains inp.paymentMethod) then
    (db, .error "Invalid payment method")
  else transaction (createSaleTx inp) db

/-! ## SalesController.processRefund (src/unnamed/part_001) -/

/-- One element of the `items` array of a refund request. -/
structure RefundItemInput where
  saleItemId : Nat
  quantityToRefund : Int
  deriving Repr, DecidableEq

/-- The per-item loop of `processRefund`: look up the sale line (joined
with `products`), check the requested quantity against the originally
sold quantity of that line, return `quantity_on_hand += qty` on the
original batch and append one `stock_movements` row of type `return`. -/
def processRefundLoop (saleId : Nat) (reason : Option String)
    (processedBy : Nat) :
    List RefundItemInput → DB → Rat → Except String (DB × Rat)
  | [], db, total => .ok (db, total)
  | r :: rest, db, total =>
    match db.sale_items.find? (fun si =>
        si.sale_item_id == r.saleItemId && si.sale_id == saleId &&
        (db.products.find? (fun p => p.product_id == si.product_id)).isSome) with
    | none => .error ("Sale item " ++ toString r.saleItemId ++ " not found")
    | some item =>
      if item.quantity < r.quantityToRefund then
        .error ("Cannot refund more than the sold quantity of sale item " ++
          toString r.saleItemId)
      else
        let itemRefundAmount :=
          item.line_total / (item.quantity : Rat) * (r.quantityToRefund : Rat)
        let db1 := { db with
          inventory := addOnHand db.inventory item.inventory_id r.quantityToRefund }
        let db2 :=
          match db1.inventory.find? (fun i =>
              i.inventory_id == item.inventory_id) with
          | none => db1
          | some i =>
            { db1 with
              stock_movements := db1.stock_movements ++ [{
                movement_id := db1.nextMovementId,
                inventory_id := item.inventory_id,
                product_id := item.product_id,
                movement_type := "return",
                quantity_change := r.quantityToRefund,
                quantity_before := i.quantity_on_hand - r.quantityToRefund,
                quantity_after := i.quantity_on_hand,
                unit_cost := none,
                reference_id := some saleId,
                reference_type := some "sale_refund",
                reason := reason.getD "Sale refund",
                performed_by := processedBy }],
              nextMovementId := db1.nextMovementId + 1 }
        processRefundLoop saleId reason processedBy rest db2
          (total + itemRefundAmount)

/-- The transaction callback of `processRefund`: the sale must exist with
`payment_status = completed`; process each refund item; optionally check
the caller-provided refund amount; finally set the sale status to
`refunded` or `partial`. -/
def processRefundTx (saleId : Nat) (items : List RefundItemInput)
    (reason : Option String) (refundAmount : Option Rat) (processedBy : Nat)
    (db : DB) : Except String (DB × Rat) :=
  match db.sales.find? (fun s =>
      s.sale_id == saleId && s.payment_status == "completed") with
  | none => .error "Sale not found or cannot be refunded"
  | some sale =>
    match processRefundLoop saleId reason processedBy items db 0 with
    | .error e => .error e
    | .ok (db1, totalRefundAmount) =>
      let provided := refundAmount.getD 0
      if provided ≠ 0 ∧ (1 : Rat)/100 < |provided - totalRefundAmount| then
        .error "Provided refund amount does not match calculated amount"
      else
        let finalRefundAmount := if provided == 0 then totalRefundAmount else provided
        let newPaymentStatus :=
          if sale.total_amount ≤ finalRefundAmount then "refunded" else "partial"
        let db2 := { db1 with sales := db1.sales.map (fun s =>
            if s.sale_id == saleId then
              { s with payment_status := newPaymentStatus,
                       notes := s.notes ++ " Refund processed." }
            else s) }
        .ok (db2, finalRefundAmount)

/-- `SalesController.processRefund`: request validation, then the
transaction; on any thrown error the state rolls back unchanged. -/
def processRefund (saleId : Nat) (items : List RefundItemInput)
    (reason : Option String) (refundAmount : Option Rat) (processedBy : Nat)
    (db : DB) : DB × Except String Rat :=
  if items.isEmpty then (db, .error "Items to refund are required")
  else transaction (processRefundTx saleId items reason refundAmount processedBy) db

/-! ## PurchaseOrderController.receiveGoods -/

/-- One element of the `items` array of a goods receipt. -/
structure ReceiveItemInput where
  po_item_id : Nat
  quantity_received : Int
  batch_number : String
  lot_number : String
  expiration_date : Int
  deriving Repr, DecidableEq

/-- The per-item loop of `receiveGoods`: look up the purchase-order line
(joined with `products`), reject over-receipt, update the line, then
INSERT a brand-new `inventory` row for the received quantity.  No lookup
of an existing batch and no `stock_movements` row occurs in the source.
The new row starts with `quantity_reserved = 0` (column default; the SQL
schema file is not among the sources, the default follows spec §3). -/
def receiveGoodsLoop (poId : Nat) (today : Int) :
    List ReceiveItemInput → DB → Except String DB
  | [], db => .ok db
  | it :: rest, db =>
    match db.purchase_order_items.find? (fun x =>
        x.po_item_id == it.po_item_id && x.po_id == poId &&
        (db.products.find? (fun p => p.product_id == x.product_id)).isSome) with
    | none =>
      .error ("Purchase order item " ++ toString it.po_item_id ++ " not found")
    | some poItem =>
      let newQuantityReceived := poItem.quantity_received + it.quantity_received
      if poItem.quantity_ordered < newQuantityReceived then
        .error ("Cannot receive more than ordered quantity for item " ++
          toString it.po_item_id)
      else
        let newStatus :=
          if newQuantityReceived == poItem.quantity_ordered then "received"
          else "partially_received"
        let db1 := { db with
          purchase_order_items := db.purchase_order_items.map (fun (x : POItem) =>
            if x.po_item_id == it.po_item_id then
              { x with quantity_received := newQuantityReceived,
                       status := newStatus }
            else x) }
        match db1.purchase_orders.find? (fun (po : PurchaseOrder) => po.po_id == poId) with
        | none => .error "Cannot read supplier_id of missing purchase order"
        | some po =>
          let newRow : Inventory := {
            inventory_id := db1.nextInventoryId,
            product_id := poItem.product_id,
            supplier_id := po.supplier_id,
            batch_number := it.batch_number,
            lot_number := it.lot_number,
            quantity_on_hand := it.quantity_received,
            quantity_reserved := 0,
            unit_cost := poItem.unit_cost,
            expiration_date := it.expiration_date,
            received_date := today,
            status := "active" }
          receiveGoodsLoop poId today rest
            { db1 with inventory := db1.inventory ++ [newRow],
                       nextInventoryId := db1.nextInventoryId + 1 }

/-- The aggregate purchase-order status recomputed at the end of
`receiveGoods` from the per-line statuses. -/
def recomputedPoStatus (db1 : DB) (poId : Nat) : String :=
  let poItems := db1.purchase_order_items.filter (fun x => x.po_id == poId)
  let totalItems := poItems.length
  let receivedItems := (poItems.filter (fun x => x.status == "received")).length
  let partialItems :=
    (poItems.filter (fun x => x.status == "partially_received")).length
  if receivedItems == totalItems then "received"
  else if partialItems != 0 || receivedItems != 0 then "partially_received"
  else "ordered"

/-- The transaction callback of `receiveGoods`: process every received
item, then recompute and store the purchase-order status. -/
def receiveGoodsTx (poId : Nat) (items : List ReceiveItemInput) (today : Int)
    (db : DB) : Except String (DB × Unit) :=
  match receiveGoodsLoop poId today items db with
  | .error e => .error e
  | .ok db1 =>
    .ok ({ db1 with purchase_orders := db1.purchase_orders.map (fun po =>
        if po.po_id == poId then { po with status := recomputedPoStatus db1 poId }
        else po) }, ())

/-- `PurchaseOrderController.receiveGoods`: request validation, then the
transaction; on any thrown error the state rolls back unchanged. -/
def receiveGoods (poId : Nat) (items : List ReceiveItemInput) (today : Int)
    (db : DB) : DB × Except String Unit :=
  if items.isEmpty then (db, .error "No items to receive")
  else transaction (receiveGoodsTx poId items today) db

/-! ## AuthController.createTransfer -/

/-- Whitespace test used by `trimStr`. -/
def isWS (c : Char) : Bool := c == ' ' || c == '\t' || c == '\n' || c == '\r'

/-- Computable model of the JavaScript `String.trim()`: drop leading and
trailing whitespace. -/
def trimStr (s : String) : String :=
  String.mk (((s.toList.dropWhile isWS).reverse.dropWhile isWS).reverse)

/-- The transaction callback of `createTransfer`: both batches must exist
and be active and belong to the same product, the source must hold the
quantity; then set the two new `quantity_on_hand` values and append the
linked `transfer_out` / `transfer_in` movement pair, each referencing
the other batch. -/
def createTransferTx (fromInventoryId toInventoryId : Nat) (quantity : Int)
    (reason : String) (userId : Nat) (db : DB) : Except String (DB × Unit) :=
  match findActive db.inventory fromInventoryId with
  | none => .error "Source inventory record not found or inactive"
  | some fromInventory =>
    match findActive db.inventory toInventoryId with
    | none => .error "Destination inventory record not found or inactive"
    | some toInventory =>
      if fromInventory.product_id != toInventory.product_id then
        .error "Cannot transfer between different products"
      else if fromInventory.quantity_on_hand < quantity then
        .error ("Insufficient quantity in source batch. Available: " ++
          toString fromInventory.quantity_on_hand)
      else
        let fromQuantityAfter := fromInventory.quantity_on_hand - quantity
        let toQuantityAfter := toInventory.quantity_on_hand + quantity
        let inv1 := setOnHand db.inventory fromInventoryId fromQuantityAfter
        let inv2 := setOnHand inv1 toInventoryId toQuantityAfter
        let mOut : StockMovement := {
          movement_id := db.nextMovementId,
          inventory_id := fromInventoryId,
          product_id := fromInventory.product_id,
          movement_type := "transfer",
          quantity_change := -quantity,
          quantity_before := fromInventory.quantity_on_hand,
          quantity_after := fromQuantityAfter,
          unit_cost := some fromInventory.unit_cost,
          reference_id := some toInventoryId,
          reference_type := some "transfer_out",
          reason := "Transfer out: " ++ trimStr reason,
          performed_by := userId }
        let mIn : StockMovement := {
          movement_id := db.nextMovementId + 1,
          inventory_id := toInventoryId,
          product_id := toInventory.product_id,
          movement_type := "transfer",
          quantity_change := quantity,
          quantity_before := toInventory.quantity_on_hand,
          quantity_after := toQuantityAfter,
          unit_cost := some toInventory.unit_cost,
          reference_id := some fromInventoryId,
          reference_type := some "transfer_in",
          reason := "Transfer in: " ++ trimStr reason,
          performed_by := userId }
        .ok ({ db with inventory := inv2,
                       stock_movements := db.stock_movements ++ [mOut, mIn],
                       nextMovementId := db.nextMovementId + 2 }, ())

/-- `AuthController.createTransfer`: request validation (same-batch
transfers are rejected before the transaction starts), then the
transaction; on any thrown error the state rolls back unchanged. -/
def createTransfer (fromInventoryId toInventoryId : Nat) (quantity : Int)
    (reason : String) (userId : Nat) (db : DB) : DB × Except String Unit :=
  if fromInventoryId == 0 || toInventoryId == 0 || decide (quantity ≤ 0) then
    (db, .error "From inventory, to inventory, and positive quantity are required")
  else if fromInventoryId == toInventoryId then
    (db, .error "Cannot transfer to the same inventory record")
  else if trimStr reason == "" then
    (db, .error "Reason for transfer is required")
  else transaction
    (createTransferTx fromInventoryId toInventoryId quantity reason userId) db

/-! ## InventoryController.inventoryAdjustment -/

/-- Modelled from the spec: `Inventory.findById` is implemented in
`src/models/Inventory.js`, which is not among the sources; per spec §3 /
§4.1 it fetches the batch row by its id. -/
def Inventory_findById (db : DB) (id : Nat) : Option Inventory :=
  db.inventory.find? (fun i => i.inventory_id == id)

/-- Modelled from the spec: `Inventory.updateQuantity` is implemented in
`src/models/Inventory.js`, which is not among the sources; it stores the
given (already non-negative) quantity as the batch's new
`quantity_on_hand`. -/
def Inventory_updateQuantity (db : DB) (id : Nat) (q : Int) : DB :=
  { db with inventory := setOnHand db.inventory id q }

/-- `InventoryController.inventoryAdjustment`: validate the id and the
reason, fetch the batch, then store
`newQuantity = Math.max(0, quantity_on_hand + adjustment_quantity)` —
a negative result is clamped to zero, not rejected. -/
def inventoryAdjustment (id : Nat) (delta : Int) (reason : String) (db : DB) :
    DB × Except String Int :=
  if id == 0 then (db, .error "Invalid inventory ID")
  else if trimStr reason == "" then
    (db, .error "Reason is required for inventory adjustments")
  else
    match Inventory_findById db id with
    | none => (db, .error "Inventory record not found")
    | some currentInventory =>
      let newQuantity := max 0 (currentInventory.quantity_on_hand + delta)
      (Inventory_updateQuantity db id newQuantity, .ok newQuantity)

/-! ## Expiry classification
(ReportController.getExpirationReport in src/unnamed/part_000 and
AlertController.generateExpirationAlerts) -/

/-- The `urgency_level` CASE expression of the expiration report:
classify a batch by its expiration date relative to CURRENT_DATE. -/
def urgency_level (today exp : Int) : String :=
  if exp < today then "expired"
  else if exp - today ≤ 30 then "critical"
  else if exp - today ≤ 60 then "warning"
  else "watch"

/-- The `alert_type` CASE expression of the expiration alert generator:
the CASE has no ELSE branch, so dates beyond the 90-day horizon map to
SQL NULL (`none`); the surrounding WHERE clause restricts rows to
`expiration_date <= CURRENT_DATE + 90 days` anyway. -/
def alert_type (today exp : Int) : Option String :=
  if exp < today then some "expired"
  else if exp ≤ today + 30 then some "30_days"
  else if exp ≤ today + 60 then some "60_days"
  else if exp ≤ today + 90 then some "90_days"
  else none

/-- The renaming between the report's tier labels and the alert
generator's alert types. -/
def alertTypeOfUrgency : String → String
  | "critical" => "30_days"
  | "warning" => "60_days"
  | "watch" => "90_days"
  | u => u

/-! ## Concrete scenario data -/

/-- Product P of the spec §8 FIFO scenario: active, no prescription
needed, no tax. -/
def prodP : Product :=
  { product_id := 1, product_name := "Amoxicillin", is_active := true,
    requires_prescription := false, tax_rate := 0 }

/-- Batch X of the FIFO scenario: on_hand 10, earliest expiration. -/
def batchX : Inventory :=
  { inventory_id := 1, product_id := 1, supplier_id := 1,
    batch_number := "X", lot_number := "LX", quantity_on_hand := 10,
    quantity_reserved := 0, unit_cost := 2, expiration_date := 100,
    received_date := 0, status := "active" }

/-- Batch Y of the FIFO scenario: on_hand 10, later expiration. -/
def batchY : Inventory :=
  { batchX with
    inventory_id := 2, batch_number := "Y", lot_number := "LY",
    expiration_date := 200 }

/-- Database holding product P with batches X and Y and nothing else. -/
def dbXY : DB :=
  { products := [prodP], inventory := [batchX, batchY], sales := [],
    sale_items := [], stock_movements := [], purchase_orders := [],
    purchase_order_items := [], nextSaleId := 1, nextSaleItemId := 1,
    nextInventoryId := 3, nextMovementId := 1 }

/-- One sale line: `q` units of product P at unit price 1, no discount,
no pinned batch. -/
def saleLine (q : Int) : SaleItemInput :=
  { productId := 1, quantity := q, unitPrice := 1,
    discountPercentage := 0, inventoryId := none }

/-- A one-line cash sale request for `q` units of product P with unit
price 1, no discount, no pinned batch; the customer pays the exact
total. -/
def saleReq (q : Int) : SaleInput :=
  { customerId := none, items := [saleLine q],
    paymentMethod := "cash", prescriptionNumber := none,
    insuranceClaimAmount := 0, customerPaymentAmount := (q : Rat),
    notes := "" }

/-! ## Properties of the FIFO batch selection -/

theorem firstMinExpiry_eq_none {l : List Inventory} :
    firstMinExpiry l = none ↔ l = [] := by
  cases l with
  | nil => simp [firstMinExpiry]
  | cons i is =>
    simp only [firstMinExpiry]
    constructor
    · intro h
      cases his : firstMinExpiry is with
      | none => rw [his] at h; simp at h
      | some j =>
        rw [his] at h
        by_cases hlt : j.expiration_date < i.expiration_date <;>
          simp [hlt] at h
    · intro h; simp at h

theorem firstMinExpiry_mem {l : List Inventory} :
    ∀ {b : Inventory}, firstMinExpiry l = some b → b ∈ l := by
  induction l with
  | nil => intro b h; simp [firstMinExpiry] at h
  | cons i is ih =>
    intro b h
    simp only [firstMinExpiry] at h
    cases his : firstMinExpiry is with
    | none =>
      rw [his] at h
      simp at h
      simp [h]
    | some j =>
      rw [his] at h
      by_cases hlt : j.expiration_date < i.expiration_date
      · simp [hlt] at h
        subst h
        exact List.mem_cons_of_mem i (ih his)
      · simp [hlt] at h
        simp [h]

theorem firstMinExpiry_le {l : List Inventory} :
    ∀ {b : Inventory}, firstMinExpiry l = some b →
      ∀ c ∈ l, b.expiration_date ≤ c.expiration_date := by
  induction l with
  | nil => intro b h; simp [firstMinExpiry] at h
  | cons i is ih =>
    intro b h
    simp only [firstMinExpiry] at h
    cases his : firstMinExpiry is with
    | none =>
      have hnil : is = [] := firstMinExpiry_eq_none.mp his
      rw [his] at h
      simp at h
      subst h
      simp [hnil]
    | some j =>
      rw [his] at h
      by_cases hlt : j.expiration_date < i.expiration_date
      · simp [hlt] at h
        subst h
        intro c hc
        rcases List.mem_cons.mp hc with rfl | hc
        · exact le_of_lt hlt
        · exact ih his c hc
      · simp [hlt] at h
        subst h
        intro c hc
        rcases List.mem_cons.mp hc with rfl | hc
        · exact le_refl _
        · exact le_trans (not_lt.mp hlt) (ih his c hc)

/-- C1 (amended): with no pinned batch, allocation never splits a
request across batches.  The inventory check returns the single
earliest-expiring active batch whose available quantity covers the
entire requested amount — the chosen batch is eligible (active, right
product, `quantity_available ≥ qty`) and expires no later than any other
eligible batch — and it returns nothing exactly when no single batch can
cover the whole request, in which case the sale fails even if the total
available across batches would suffice. -/
theorem fifoCandidate_whole_request_single_batch :
    (∀ db pid q b, fifoCandidate db pid q = some b →
        b ∈ db.inventory ∧ b.product_id = pid ∧ b.status = "active" ∧
        q ≤ b.quantity_available ∧
        ∀ c ∈ eligibleBatches db pid q,
          b.expiration_date ≤ c.expiration_date) ∧
    (∀ db pid q, fifoCandidate db pid q = none ↔
        eligibleBatches db pid q = []) := by
  constructor
  · intro db pid q b hb
    have hmem : b ∈ eligibleBatches db pid q := firstMinExpiry_mem hb
    have hfil := List.mem_filter.mp hmem
    have hcond := hfil.2
    simp only [Bool.and_eq_true, beq_iff_eq, decide_eq_true_eq] at hcond
    exact ⟨hfil.1, hcond.1.1, hcond.1.2, hcond.2, firstMinExpiry_le hb⟩
  · intro db pid q
    exact firstMinExpiry_eq_none

/-- C1 witness: on the X/Y database a 5-unit request is coverable by a
single batch, and the selection picks batch X, the earliest-expiring
eligible batch. -/
theorem fifoCandidate_whole_request_single_batch_witness :
    batchX ∈ dbXY.inventory ∧ batchX.product_id = 1 ∧
    batchX.status = "active" ∧ (5 : Int) ≤ batchX.quantity_available ∧
    ∀ c ∈ eligibleBatches dbXY 1 5,
      batchX.expiration_date ≤ c.expiration_date :=
  fifoCandidate_whole_request_single_batch.1 dbXY 1 5 batchX (by decide)

/-- C1 counterexample: product P with batch X (on_hand 10, expires
first) and batch Y (on_hand 10, expires later) holds 20 units in total,
yet the 15-unit sale of the spec scenario does not split 10/5 across the
batches — it fails with the insufficient-inventory error and leaves the
state untouched. -/
theorem createSale_15_units_fails_no_split :
    sumOnHand dbXY.inventory = 20 ∧
    createSale (saleReq 15) dbXY =
      (dbXY, .error "Insufficient inventory for product: Amoxicillin") := by
  constructor
  · decide
  · rfl

/-! ## C2: inventory adjustment clamps instead of rejecting -/

/-- A batch of product P with only 3 units on hand. -/
def batch3 : Inventory := { batchX with quantity_on_hand := 3 }

/-- Database holding product P with the 3-unit batch only. -/
def dbAdj : DB := { dbXY with inventory := [batch3] }

/-- C2 (amended): `InventoryController.inventoryAdjustment` never
rejects a delta that would drive `quantity_on_hand` negative: whenever
the id is valid, the reason non-empty and the batch exists, the
operation succeeds and stores
`Math.max(0, quantity_on_hand + delta)` — the result is silently
clamped at zero rather than failing with
InsufficientStock/InvariantViolation. -/
theorem inventoryAdjustment_clamps_at_zero :
    ∀ (db : DB) (id : Nat) (delta : Int) (reason : String) (inv : Inventory),
      id ≠ 0 → trimStr reason ≠ "" → Inventory_findById db id = some inv →
      inventoryAdjustment id delta reason db =
        ({ db with inventory := setOnHand db.inventory id
                     (max 0 (inv.quantity_on_hand + delta)) },
         .ok (max 0 (inv.quantity_on_hand + delta))) := by
  intro db id delta reason inv h0 hr hfind
  unfold inventoryAdjustment
  rw [if_neg (by simpa using h0), if_neg (by simpa using hr), hfind]
  rfl

/-- C2 witness: the adjustment of −5 on the 3-unit batch is accepted by
the theorem's hypotheses and clamps the stored quantity to 0. -/
theorem inventoryAdjustment_clamps_at_zero_witness :
    inventoryAdjustment 1 (-5) "damaged" dbAdj =
      ({ dbAdj with inventory := setOnHand dbAdj.inventory 1
                      (max 0 (batch3.quantity_on_hand + (-5))) },
       .ok (max 0 (batch3.quantity_on_hand + (-5)))) :=
  inventoryAdjustment_clamps_at_zero dbAdj 1 (-5) "damaged" batch3
    (by decide) (by decide) (by decide)

/-- C2 counterexample: Adjustment(delta = −5, reason = "damaged") on a
batch with on_hand = 3 does not fail — it succeeds and the batch's
on_hand becomes 0 instead of staying 3. -/
theorem inventoryAdjustment_neg5_on_3_succeeds :
    (inventoryAdjustment 1 (-5) "damaged" dbAdj).2 = .ok 0 ∧
    (inventoryAdjustment 1 (-5) "damaged" dbAdj).1.inventory.map
      Inventory.quantity_on_hand = [0] := by
  constructor
  · rfl
  · decide

/-! ## Movement-log effects of each operation -/

theorem createSaleLoop_movements (presc : Option String) :
    ∀ (items : List SaleItemInput) (db : DB) (sub tax : Rat)
      (acc : List ProcessedItem) (res : DB × Rat × Rat × List ProcessedItem),
      createSaleLoop presc items db sub tax acc = .ok res →
      res.1.stock_movements = db.stock_movements := by
  intro items
  induction items with
  | nil =>
    intro db sub tax acc res h
    simp only [createSaleLoop] at h
    injection h with h
    rw [← h]
  | cons it rest ih =>
    intro db sub tax acc res h
    simp only [createSaleLoop] at h
    repeat' split at h
    all_goals first
      | exact Eq.trans (ih _ _ _ _ _ h) rfl
      | simp at h

theorem commitSaleItems_movements (saleId : Nat) :
    ∀ (ps : List ProcessedItem) (db : DB),
      (commitSaleItems saleId ps db).stock_movements = db.stock_movements := by
  intro ps
  induction ps with
  | nil => intro db; rfl
  | cons p rest ih => intro db; exact ih _

theorem receiveGoodsLoop_movements (poId : Nat) (today : Int) :
    ∀ (items : List ReceiveItemInput) (db db1 : DB),
      receiveGoodsLoop poId today items db = .ok db1 →
      db1.stock_movements = db.stock_movements := by
  intro items
  induction items with
  | nil =>
    intro db db1 h
    simp only [receiveGoodsLoop] at h
    injection h with h
    rw [← h]
  | cons it rest ih =>
    intro db db1 h
    simp only [receiveGoodsLoop] at h
    repeat' split at h
    all_goals first
      | exact Eq.trans (ih _ _ h) rfl
      | simp at h

/-- C3 (amended): only the refund, adjustment and transfer flows pair a
quantity change with `stock_movements` rows.  A committed sale and a
committed goods receipt change `quantity_on_hand` while leaving the
movement log exactly as it was: neither path ever inserts a
`stock_movements` row, under every input whatsoever. -/
theorem sale_and_receipt_write_no_movements :
    (∀ inp db, (createSale inp db).1.stock_movements = db.stock_movements) ∧
    (∀ poId items today db,
      (receiveGoods poId items today db).1.stock_movements
        = db.stock_movements) := by
  constructor
  · intro inp db
    unfold createSale
    split
    · rfl
    split
    · rfl
    split
    · rfl
    unfold transaction
    cases htx : createSaleTx inp db with
    | error e => simp
    | ok p =>
      simp only []
      unfold createSaleTx at htx
      split at htx
      · simp at htx
      · rename_i db1 subtotal tax processed hloop
        split at htx
        · simp at htx
        · injection htx with htx
          rw [← htx]
          exact Eq.trans (commitSaleItems_movements _ _ _)
            (createSaleLoop_movements _ _ _ _ _ _ _ hloop)
  · intro poId items today db
    unfold receiveGoods
    split
    · rfl
    unfold transaction
    cases htx : receiveGoodsTx poId items today db with
    | error e => simp
    | ok p =>
      simp only []
      unfold receiveGoodsTx at htx
      split at htx
      · simp at htx
      · rename_i db1 hloop
        injection htx with htx
        rw [← htx]
        have hm := receiveGoodsLoop_movements _ _ _ _ _ hloop
        exact hm

/-- C3 counterexample: the committed 5-unit sale on the X/Y database
succeeds and decrements batch X's `quantity_on_hand` from 10 to 5, yet
the movement log stays empty — no `Movement(sale, -qty)` row is written
for the consumed batch. -/
theorem committed_sale_writes_zero_movements :
    (createSale (saleReq 5) dbXY).2 = .ok 1 ∧
    (createSale (saleReq 5) dbXY).1.inventory.map
      Inventory.quantity_on_hand = [5, 10] ∧
    (createSale (saleReq 5) dbXY).1.stock_movements = [] := by
  refine ⟨?_, ?_, ?_⟩ <;>
  · norm_num [createSale, createSaleTx, createSaleLoop, commitSaleItems,
      newSaleRow, saleReq, saleLine, dbXY, prodP, batchX, batchY,
      fifoCandidate, eligibleBatches, firstMinExpiry, pinnedCandidate,
      addReserved, transaction, validPaymentMethods,
      Inventory.quantity_available]
    rw [if_neg (show ¬("cash" = "") by decide)] <;> rfl

/-! ## All-or-nothing failure semantics -/

theorem transaction_error_keeps_state (f : DB → Except String (DB × α))
    (db : DB) (e : String) (h : (transaction f db).2 = .error e) :
    (transaction f db).1 = db := by
  unfold transaction at h ⊢
  cases hf : f db with
  | error e2 => rfl
  | ok p => rw [hf] at h; simp at h

/-- C4: every core operation that fails — with any error, at any stage —
persists nothing: the resulting state equals the state from before the
call, because every mutation runs inside the `transaction` helper which
rolls back on any thrown error, and the pre-transaction validations
return before touching the state.  In particular a multi-line sale whose
later line fails leaves no earlier reservation behind. -/
theorem failed_operation_changes_nothing :
    (∀ inp db e, (createSale inp db).2 = .error e →
      (createSale inp db).1 = db) ∧
    (∀ saleId items reason refundAmount u db e,
      (processRefund saleId items reason refundAmount u db).2 = .error e →
      (processRefund saleId items reason refundAmount u db).1 = db) ∧
    (∀ poId items today db e,
      (receiveGoods poId items today db).2 = .error e →
      (receiveGoods poId items today db).1 = db) ∧
    (∀ fromId toId q reason u db e,
      (createTransfer fromId toId q reason u db).2 = .error e →
      (createTransfer fromId toId q reason u db).1 = db) ∧
    (∀ id delta reason db e,
      (inventoryAdjustment id delta reason db).2 = .error e →
      (inventoryAdjustment id delta reason db).1 = db) := by
  refine ⟨?_, ?_, ?_, ?_, ?_⟩
  · intro inp db e h
    unfold createSale at h ⊢
    split
    · rfl
    split
    · rfl
    split
    · rfl
    rename_i h1 h2 h3
    rw [if_neg h1, if_neg h2, if_neg h3] at h
    exact transaction_error_keeps_state _ _ _ h
  · intro saleId items reason refundAmount u db e h
    unfold processRefund at h ⊢
    split
    · rfl
    rename_i h1
    rw [if_neg h1] at h
    exact transaction_error_keeps_state _ _ _ h
  · intro poId items today db e h
    unfold receiveGoods at h ⊢
    split
    · rfl
    rename_i h1
    rw [if_neg h1] at h
    exact transaction_error_keeps_state _ _ _ h
  · intro fromId toId q reason u db e h
    unfold createTransfer at h ⊢
    split
    · rfl
    split
    · rfl
    split
    · rfl
    rename_i h1 h2 h3
    rw [if_neg h1, if_neg h2, if_neg h3] at h
    exact transaction_error_keeps_state _ _ _ h
  · intro id delta reason db e h
    unfold inventoryAdjustment at h ⊢
    split
    · rfl
    rename_i h1
    split
    · rfl
    rename_i h2
    split
    · rfl
    · rename_i inv heq
      rw [if_neg h1, if_neg h2, heq] at h
      simp at h

/-- C4 witness: the failing 15-unit sale on the X/Y database — whose
first and only line fails allocation — leaves the database exactly as it
was. -/
theorem failed_operation_changes_nothing_witness :
    (createSale (saleReq 15) dbXY).1 = dbXY :=
  failed_operation_changes_nothing.1 (saleReq 15) dbXY
    "Insufficient inventory for product: Amoxicillin" (by rfl)

/-! ## Goods receipt always inserts a fresh batch row -/

theorem cons_row_step {a : List Inventory} {x : Inventory}
    {rows : List Inventory} {l : List Inventory}
    (h : (a ++ [x]) ++ rows = l) : a ++ (x :: rows) = l := by
  rw [← h]
  simp

theorem receiveGoodsLoop_inventory (poId : Nat) (today : Int) :
    ∀ (items : List ReceiveItemInput) (db db1 : DB),
      receiveGoodsLoop poId today items db = .ok db1 →
      ∃ rows, db.inventory ++ rows = db1.inventory ∧
        rows.length = items.length := by
  intro items
  induction items with
  | nil =>
    intro db db1 h
    simp only [receiveGoodsLoop] at h
    injection h with h
    rw [← h]
    exact ⟨[], by simp, rfl⟩
  | cons it rest ih =>
    intro db db1 h
    simp only [receiveGoodsLoop] at h
    repeat' split at h
    all_goals first
      | (obtain ⟨rows, hr, hl⟩ := ih _ _ h
         exact ⟨_ :: rows, cons_row_step hr, by simp [hl]⟩)
      | simp at h

/-- Purchase order 7 with one 20-unit line of product P, not yet
received. -/
def poRow : PurchaseOrder := { po_id := 7, supplier_id := 1, status := "ordered" }

/-- The order line of purchase order 7. -/
def poItemRow : POItem :=
  { po_item_id := 1, po_id := 7, product_id := 1, quantity_ordered := 20,
    quantity_received := 0, unit_cost := 2, status := "ordered" }

/-- An existing active batch of product P with batch number B1, lot L1,
expiration day 100 and 50 units on hand. -/
def batchB1 : Inventory :=
  { inventory_id := 1, product_id := 1, supplier_id := 1,
    batch_number := "B1", lot_number := "L1", quantity_on_hand := 50,
    quantity_reserved := 0, unit_cost := 2, expiration_date := 100,
    received_date := 0, status := "active" }

/-- Database holding product P, the existing B1/L1 batch and purchase
order 7. -/
def dbRecv : DB :=
  { products := [prodP], inventory := [batchB1], sales := [],
    sale_items := [], stock_movements := [], purchase_orders := [poRow],
    purchase_order_items := [poItemRow], nextSaleId := 1,
    nextSaleItemId := 1, nextInventoryId := 2, nextMovementId := 1 }

/-- A received item carrying exactly the same batch number, lot number
and expiration date as the existing batch B1. -/
def recvItem : ReceiveItemInput :=
  { po_item_id := 1, quantity_received := 20, batch_number := "B1",
    lot_number := "L1", expiration_date := 100 }

/-- C6 (amended): a goods receipt always creates brand-new `inventory`
rows — one per received item, appended after the existing rows, which
are never increased — regardless of whether an existing batch matches
the same batch/lot number and expiration date; and it writes no
`Movement(purchase, +qty)` row at all. -/
theorem receiveGoods_always_creates_new_batch :
    ∀ (poId : Nat) (items : List ReceiveItemInput) (today : Int)
      (db dbf : DB), items ≠ [] →
      receiveGoodsTx poId items today db = .ok (dbf, ()) →
      receiveGoods poId items today db = (dbf, .ok ()) ∧
      (∃ rows, db.inventory ++ rows = dbf.inventory ∧
        rows.length = items.length) ∧
      dbf.stock_movements = db.stock_movements := by
  intro poId items today db dbf hne htx
  constructor
  · unfold receiveGoods
    rw [if_neg (by simpa using hne)]
    unfold transaction
    rw [htx]
  · unfold receiveGoodsTx at htx
    split at htx
    · simp at htx
    · rename_i db1 hloop
      injection htx with htx
      injection htx with hdb hu
      subst hdb
      obtain ⟨rows, hr, hl⟩ := receiveGoodsLoop_inventory _ _ _ _ _ hloop
      have hm := receiveGoodsLoop_movements _ _ _ _ _ hloop
      exact ⟨⟨rows, hr, hl⟩, hm⟩

/-- C6 witness: receiving the B1/L1 item against purchase order 7
succeeds, appends exactly one new inventory row and writes no movement
row. -/
theorem receiveGoods_always_creates_new_batch_witness :
    receiveGoods 7 [recvItem] 0 dbRecv =
      ((receiveGoods 7 [recvItem] 0 dbRecv).1, .ok ()) ∧
    (∃ rows, dbRecv.inventory ++ rows =
        (receiveGoods 7 [recvItem] 0 dbRecv).1.inventory ∧
      rows.length = [recvItem].length) ∧
    (receiveGoods 7 [recvItem] 0 dbRecv).1.stock_movements =
      dbRecv.stock_movements :=
  receiveGoods_always_creates_new_batch 7 [recvItem] 0 dbRecv
    (receiveGoods 7 [recvItem] 0 dbRecv).1 (by decide) (by rfl)

/-- C6 counterexample: the received item matches the existing batch B1
on product, batch number, lot number and expiration date, yet the
receipt does not increase B1 (it stays at 50): a second, duplicate batch
row with 20 units is inserted instead, and no Movement(purchase) row is
written. -/
theorem receipt_with_matching_batch_duplicates_row :
    (receiveGoods 7 [recvItem] 0 dbRecv).2 = .ok () ∧
    (receiveGoods 7 [recvItem] 0 dbRecv).1.inventory.map
      (fun i => (i.product_id, i.batch_number, i.lot_number,
        i.expiration_date, i.quantity_on_hand)) =
      [(1, "B1", "L1", 100, 50), (1, "B1", "L1", 100, 20)] ∧
    (receiveGoods 7 [recvItem] 0 dbRecv).1.stock_movements = [] := by
  refine ⟨rfl, ?_, rfl⟩
  decide

/-! ## Transfer conservation -/

theorem setOnHand_map_id (id : Nat) (v : Int) :
    ∀ l : List Inventory,
      (setOnHand l id v).map Inventory.inventory_id =
        l.map Inventory.inventory_id := by
  intro l
  simp only [setOnHand, List.map_map]
  apply List.map_congr_left
  intro a _
  simp only [Function.comp]
  split <;> rfl

theorem setOnHand_not_mem (id : Nat) (v : Int) :
    ∀ l : List Inventory, (∀ j ∈ l, j.inventory_id ≠ id) →
      setOnHand l id v = l := by
  intro l
  induction l with
  | nil => intro _; rfl
  | cons i is ih =>
    intro h
    simp only [setOnHand, List.map_cons]
    rw [if_neg (by simp [h i (List.mem_cons_self i is)])]
    have h2 := ih (fun j hj => h j (List.mem_cons_of_mem i hj))
    simp only [setOnHand] at h2
    rw [h2]

theorem mem_setOnHand_ne {l : List Inventory} {i : Inventory} (id : Nat)
    (v : Int) (hmem : i ∈ l) (hne : i.inventory_id ≠ id) :
    i ∈ setOnHand l id v := by
  have h2 := List.mem_map_of_mem
    (fun j => if j.inventory_id == id then { j with quantity_on_hand := v }
              else j) hmem
  simpa [setOnHand, hne] using h2

theorem sumOnHand_cons (i : Inventory) (is : List Inventory) :
    sumOnHand (i :: is) = i.quantity_on_hand + sumOnHand is := by
  simp [sumOnHand]

theorem sumOnHand_setOnHand (id : Nat) (v : Int) :
    ∀ (l : List Inventory), (l.map Inventory.inventory_id).Nodup →
      ∀ i ∈ l, i.inventory_id = id →
      sumOnHand (setOnHand l id v) =
        sumOnHand l - i.quantity_on_hand + v := by
  intro l
  induction l with
  | nil => intro _ i hi; simp at hi
  | cons a as ih =>
    intro hnd i hi hid
    have hnd2 := hnd
    simp only [List.map_cons, List.nodup_cons] at hnd2
    rcases List.mem_cons.mp hi with rfl | hi2
    · have hrest : ∀ j ∈ as, j.inventory_id ≠ id := by
        intro j hj hjid
        exact hnd2.1 (by
          rw [hid, ← hjid]
          exact List.mem_map_of_mem Inventory.inventory_id hj)
      simp only [setOnHand, List.map_cons]
      rw [if_pos (by simp [hid])]
      have h2 := setOnHand_not_mem id v as hrest
      simp only [setOnHand] at h2
      rw [h2, sumOnHand_cons, sumOnHand_cons]
      have hv : ({ i with quantity_on_hand := v } : Inventory).quantity_on_hand
          = v := rfl
      rw [hv]
      omega
    · have haid : a.inventory_id ≠ id := by
        intro ha
        exact hnd2.1 (by
          rw [ha, ← hid]
          exact List.mem_map_of_mem Inventory.inventory_id hi2)
      simp only [setOnHand, List.map_cons]
      rw [if_neg (by simp [haid])]
      have h2 := ih hnd2.2 i hi2 hid
      simp only [setOnHand] at h2
      rw [sumOnHand_cons, sumOnHand_cons, h2]
      omega

/-- A second product for cross-product transfer attempts. -/
def prodQ : Product := { prodP with product_id := 2, product_name := "Ibuprofen" }

/-- A batch of the second product. -/
def batchZ : Inventory :=
  { batchX with inventory_id := 3, product_id := 2, batch_number := "Z" }

/-- Database with batches X, Y of product P and batch Z of product Q. -/
def dbTransfer : DB :=
  { dbXY with products := [prodP, prodQ], inventory := [batchX, batchY, batchZ] }

/-- C7: a transfer between two distinct active batches of the same
product conserves the total `quantity_on_hand` across the whole
inventory (in particular across the two touched batches, all others
being left alone) and appends the linked
`Movement(transfer_out)` / `Movement(transfer_in)` pair, each
referencing the other batch; a same-batch transfer and a cross-product
transfer are both rejected with the state unchanged. -/
theorem transfer_conserves_on_hand_and_rejects_bad_pairs :
    (∀ (db : DB) (id : Nat) (q : Int) (reason : String) (u : Nat),
      id ≠ 0 → 0 < q →
      createTransfer id id q reason u db =
        (db, .error "Cannot transfer to the same inventory record")) ∧
    (∀ (db : DB) (fromId toId : Nat) (q : Int) (reason : String) (u : Nat)
       (f t : Inventory),
      fromId ≠ 0 → toId ≠ 0 → 0 < q → fromId ≠ toId → trimStr reason ≠ "" →
      findActive db.inventory fromId = some f →
      findActive db.inventory toId = some t →
      f.product_id ≠ t.product_id →
      createTransfer fromId toId q reason u db =
        (db, .error "Cannot transfer between different products")) ∧
    (∀ (db : DB) (fromId toId : Nat) (q : Int) (reason : String) (u : Nat)
       (f t : Inventory),
      fromId ≠ 0 → toId ≠ 0 → 0 < q → fromId ≠ toId → trimStr reason ≠ "" →
      findActive db.inventory fromId = some f →
      findActive db.inventory toId = some t →
      f.product_id = t.product_id → q ≤ f.quantity_on_hand →
      (db.inventory.map Inventory.inventory_id).Nodup →
      (createTransfer fromId toId q reason u db).2 = .ok () ∧
      sumOnHand (createTransfer fromId toId q reason u db).1.inventory
        = sumOnHand db.inventory ∧
      (createTransfer fromId toId q reason u db).1.stock_movements.map
        (fun m => (m.movement_type, m.quantity_change, m.inventory_id,
          m.reference_id, m.reference_type)) =
        db.stock_movements.map (fun m => (m.movement_type, m.quantity_change,
          m.inventory_id, m.reference_id, m.reference_type)) ++
        [("transfer", -q, fromId, some toId, some "transfer_out"),
         ("transfer", q, toId, some fromId, some "transfer_in")]) := by
  refine ⟨?_, ?_, ?_⟩
  · intro db id q reason u h0 hq
    simp [createTransfer, h0, not_le.mpr hq]
  · intro db fromId toId q reason u f t h0 ht0 hq hne hr hf htf hdiff
    simp only [createTransfer, transaction, createTransferTx] at *
    simp only [hf, htf]
    simp [h0, ht0, hne, hr, hdiff, not_le.mpr hq]
  · intro db fromId toId q reason u f t h0 ht0 hq hne hr hf htf hsame hcover hnd
    have hff := List.find?_some hf
    have hfm := List.mem_of_find?_eq_some hf
    have htt := List.find?_some htf
    have htm := List.mem_of_find?_eq_some htf
    simp only [Bool.and_eq_true, beq_iff_eq] at hff htt
    refine ⟨?_, ?_, ?_⟩
    · simp only [createTransfer, transaction, createTransferTx] at *
      simp only [hf, htf]
      simp [h0, ht0, hne, hr, hsame, not_le.mpr hq, not_lt.mpr hcover]
    · simp only [createTransfer, transaction, createTransferTx] at *
      simp only [hf, htf]
      simp only [h0, ht0, hne, hr, hsame, not_le.mpr hq, not_lt.mpr hcover,
        if_neg, if_pos, bne_self_eq_false, Bool.false_eq_true, if_false,
        decide_eq_true_eq, Bool.or_eq_true, beq_iff_eq, not_false_eq_true,
        or_self, ite_false, ite_true, not_lt, not_le]
      rw [sumOnHand_setOnHand toId (t.quantity_on_hand + q) _ ?hnd2 t
        ?hmem2 htt.1]
      case hnd2 => rw [setOnHand_map_id]; exact hnd
      case hmem2 =>
        apply mem_setOnHand_ne
        · exact htm
        · rw [htt.1]; exact Ne.symm hne
      rw [sumOnHand_setOnHand fromId (f.quantity_on_hand - q) _ hnd f hfm
        hff.1]
      omega
    · simp only [createTransfer, transaction, createTransferTx] at *
      simp only [hf, htf]
      simp [h0, ht0, hne, hr, hsame, not_le.mpr hq, not_lt.mpr hcover]

/-- C7 witness: on the three-batch database, the same-batch transfer
1→1 and the cross-product transfer 1→3 are rejected with no state
change, while the 5-unit transfer from batch X to batch Y succeeds,
conserves the total on-hand and writes the linked movement pair. -/
theorem transfer_conserves_on_hand_witness :
    createTransfer 1 1 5 "rebalance" 9 dbTransfer =
      (dbTransfer, .error "Cannot transfer to the same inventory record") ∧
    createTransfer 1 3 2 "rebalance" 9 dbTransfer =
      (dbTransfer, .error "Cannot transfer between different products") ∧
    ((createTransfer 1 2 5 "rebalance" 9 dbTransfer).2 = .ok () ∧
     sumOnHand (createTransfer 1 2 5 "rebalance" 9 dbTransfer).1.inventory
       = sumOnHand dbTransfer.inventory ∧
     (createTransfer 1 2 5 "rebalance" 9 dbTransfer).1.stock_movements.map
       (fun m => (m.movement_type, m.quantity_change, m.inventory_id,
         m.reference_id, m.reference_type)) =
       dbTransfer.stock_movements.map (fun m => (m.movement_type,
         m.quantity_change, m.inventory_id, m.reference_id,
         m.reference_type)) ++
       [("transfer", -5, 1, some 2, some "transfer_out"),
        ("transfer", 5, 2, some 1, some "transfer_in")]) :=
  ⟨transfer_conserves_on_hand_and_rejects_bad_pairs.1 dbTransfer 1 5
      "rebalance" 9 (by decide) (by decide),
   transfer_conserves_on_hand_and_rejects_bad_pairs.2.1 dbTransfer 1 3 2
      "rebalance" 9 batchX batchZ (by decide) (by decide) (by decide)
      (by decide) (by decide) (by rfl) (by rfl) (by decide),
   transfer_conserves_on_hand_and_rejects_bad_pairs.2.2 dbTransfer 1 2 5
      "rebalance" 9 batchX batchY (by decide) (by decide) (by decide)
      (by decide) (by decide) (by rfl) (by rfl) (by decide) (by decide)
      (by decide)⟩

/-! ## Expiry tier boundaries -/

/-- C9: within the 90-day horizon the expiration report classifies a
batch as `expired` exactly when its expiration date lies before today,
`critical` exactly when days-to-expiry is between 0 and 30, `warning`
exactly when it is between 31 and 60, and `watch` otherwise; and the
alert generator applies exactly the same boundaries — its alert type is
the report's tier under the fixed renaming
critical↦30_days, warning↦60_days, watch↦90_days. -/
theorem expiry_tier_boundaries :
    ∀ today exp : Int, exp ≤ today + 90 →
      ((urgency_level today exp = "expired" ↔ exp < today) ∧
       (urgency_level today exp = "critical" ↔
         0 ≤ exp - today ∧ exp - today ≤ 30) ∧
       (urgency_level today exp = "warning" ↔
         31 ≤ exp - today ∧ exp - today ≤ 60) ∧
       (urgency_level today exp = "watch" ↔ 61 ≤ exp - today) ∧
       alert_type today exp =
         some (alertTypeOfUrgency (urgency_level today exp))) := by
  intro today exp h
  unfold urgency_level alert_type alertTypeOfUrgency
  split_ifs with h1 h2 h3 <;> refine ⟨?_, ?_, ?_, ?_, ?_⟩ <;>
    first
      | (simp +decide; omega)
      | (simp +decide)
      | omega

/-- C9 witness: day 45 of the horizon starting today = 0 is classified
`warning` by the report and `60_days` by the alert generator. -/
theorem expiry_tier_boundaries_witness :
    (urgency_level 0 45 = "expired" ↔ (45 : Int) < 0) ∧
    (urgency_level 0 45 = "critical" ↔
      (0 : Int) ≤ 45 - 0 ∧ (45 : Int) - 0 ≤ 30) ∧
    (urgency_level 0 45 = "warning" ↔
      (31 : Int) ≤ 45 - 0 ∧ (45 : Int) - 0 ≤ 60) ∧
    (urgency_level 0 45 = "watch" ↔ (61 : Int) ≤ 45 - 0) ∧
    alert_type 0 45 = some (alertTypeOfUrgency (urgency_level 0 45)) :=
  expiry_tier_boundaries 0 45 (by decide)

/-! ## Refund accounting -/

/-- A completed sale of 5 units of product P from batch X at price 1. -/
def soldSale : SaleRow :=
  { sale_id := 1, customer_id := none, subtotal := 5, tax_amount := 0,
    total_amount := 5, payment_method := "cash",
    payment_status := "completed", notes := "" }

/-- The single line of the completed sale: 5 units from batch X. -/
def soldItem : SaleItem :=
  { sale_item_id := 1, sale_id := 1, product_id := 1, inventory_id := 1,
    quantity := 5, unit_price := 1, discount_percentage := 0,
    discount_amount := 0, line_total := 5, expiration_date := 100,
    batch_number := "X" }

/-- Batch X after the 5-unit sale: 5 units left. -/
def batchX5 : Inventory := { batchX with quantity_on_hand := 5 }

/-- Database state after the completed 5-unit sale. -/
def dbSold : DB :=
  { products := [prodP], inventory := [batchX5, batchY], sales := [soldSale],
    sale_items := [soldItem], stock_movements := [], purchase_orders := [],
    purchase_order_items := [], nextSaleId := 2, nextSaleItemId := 2,
    nextInventoryId := 3, nextMovementId := 1 }

/-- A refund request for the full sold quantity of the sale line. -/
def refundItem5 : RefundItemInput := { saleItemId := 1, quantityToRefund := 5 }

/-- C10 (amended): the refund check is indeed per-entry against the
originally sold quantity with no tracking of already-refunded
quantities, and over-refunding is possible — but through one call
listing the same sale line twice, not through two successive calls: one
`processRefund` call with the line (sold quantity 5) listed twice, each
entry requesting the full 5 units, succeeds, returns 2·5 = 10 units to
the batch (on_hand 5 → 15, exceeding what was sold) and writes two
return movements. -/
theorem duplicate_refund_lines_over_refund :
    (processRefund 1 [refundItem5, refundItem5] none none 9 dbSold).2
      = .ok 10 ∧
    (processRefund 1 [refundItem5, refundItem5] none none 9
        dbSold).1.inventory.map Inventory.quantity_on_hand = [15, 10] ∧
    (processRefund 1 [refundItem5, refundItem5] none none 9
        dbSold).1.stock_movements.map
      (fun m => (m.movement_type, m.quantity_change)) =
      [("return", 5), ("return", 5)] := by
  refine ⟨?_, ?_, ?_⟩ <;>
    norm_num +decide [processRefund, processRefundTx, processRefundLoop,
      addOnHand, transaction, dbSold, soldSale, soldItem, batchX5, batchX,
      batchY, prodP, refundItem5, le_refl (5 : Rat)]

/-- C10 counterexample: two successive refund calls for the same sale
line do not both succeed.  The first full refund succeeds (on_hand
5 → 10) but flips the sale's `payment_status` away from `completed`, so
the second identical call fails at the sale lookup with "Sale not found
or cannot be refunded". -/
theorem second_refund_call_fails :
    (processRefund 1 [refundItem5] none none 9 dbSold).2 = .ok 5 ∧
    (processRefund 1 [refundItem5] none none 9 dbSold).1.inventory.map
      Inventory.quantity_on_hand = [10, 10] ∧
    (processRefund 1 [refundItem5] none none 9
        (processRefund 1 [refundItem5] none none 9 dbSold).1).2
      = .error "Sale not found or cannot be refunded" := by
  refine ⟨?_, ?_, ?_⟩ <;>
    norm_num +decide [processRefund, processRefundTx, processRefundLoop,
      addOnHand, transaction, dbSold, soldSale, soldItem, batchX5, batchX,
      batchY, prodP, refundItem5, le_refl (5 : Rat)]

/-! ## Sale / refund round trip -/

/-- A single batch of product P holding `h` units. -/
def batchH (h : Int) : Inventory := { batchX with quantity_on_hand := h }

/-- Database with product P and one `h`-unit batch. -/
def dbOne (h : Int) : DB :=
  { products := [prodP], inventory := [batchH h], sales := [],
    sale_items := [], stock_movements := [], purchase_orders := [],
    purchase_order_items := [], nextSaleId := 1, nextSaleItemId := 1,
    nextInventoryId := 2, nextMovementId := 1 }

/-- A refund request over sale line 1 for `q` units. -/
def refundReq (q : Int) : RefundItemInput :=
  { saleItemId := 1, quantityToRefund := q }

/-- The batch of `dbOne h` after a committed `q`-unit sale. -/
def soldBatchF (h q : Int) : Inventory :=
  { batchX with quantity_on_hand := h - q, quantity_reserved := 0 }

/-- The sale row written by the committed `q`-unit sale. -/
def soldSaleF (q : Int) : SaleRow :=
  { sale_id := 1, customer_id := none, subtotal := (q : Rat),
    tax_amount := 0, total_amount := (q : Rat), payment_method := "cash",
    payment_status := "completed", notes := "" }

/-- The sale line written by the committed `q`-unit sale. -/
def soldItemF (q : Int) : SaleItem :=
  { sale_item_id := 1, sale_id := 1, product_id := 1, inventory_id := 1,
    quantity := q, unit_price := 1, discount_percentage := 0,
    discount_amount := 0, line_total := (q : Rat), expiration_date := 100,
    batch_number := "X" }

/-- The database state after the committed `q`-unit sale on `dbOne h`. -/
def dbSoldF (h q : Int) : DB :=
  { products := [prodP], inventory := [soldBatchF h q],
    sales := [soldSaleF q], sale_items := [soldItemF q],
    stock_movements := [], purchase_orders := [],
    purchase_order_items := [], nextSaleId := 2, nextSaleItemId := 2,
    nextInventoryId := 2, nextMovementId := 1 }

/-- C5 (amended): on a one-batch database with `h` units, a sale of `q`
(0 < q ≤ h) followed by a full refund of `q` does return the batch's
`quantity_on_hand` and `quantity_reserved` to their pre-sale values
(h and 0) — but the Movement trail of the round trip is the single row
`(return, +q)`: the sale never wrote its `(sale, −q)` row, so the signed
deltas sum to +q, not zero. -/
theorem sale_then_full_refund_round_trip :
    ∀ (h q : Int), 0 < q → q ≤ h →
      createSale (saleReq q) (dbOne h) = (dbSoldF h q, .ok 1) ∧
      (processRefund 1 [refundReq q] none none 9 (dbSoldF h q)).2.isOk
        = true ∧
      (processRefund 1 [refundReq q] none none 9
        (dbSoldF h q)).1.inventory.map
        (fun i => (i.quantity_on_hand, i.quantity_reserved)) = [(h, 0)] ∧
      (processRefund 1 [refundReq q] none none 9
        (dbSoldF h q)).1.stock_movements.map
        (fun m => (m.movement_type, m.quantity_change)) = [("return", q)] ∧
      ((processRefund 1 [refundReq q] none none 9
        (dbSoldF h q)).1.stock_movements.map
        StockMovement.quantity_change).sum = q := by
  intro h q hq hqh
  have h1 : ¬ (q ≤ 0) := not_le.mpr hq
  have h2 : ¬ (q < q) := lt_irrefl q
  have hfil : fifoCandidate (dbOne h) 1 q = some (batchH h) := by
    norm_num [fifoCandidate, eligibleBatches, firstMinExpiry, dbOne,
      batchH, batchX, Inventory.quantity_available, hqh]
  have hp1 : (dbOne h).products = [prodP] := rfl
  have hp2 : (dbOne h).inventory = [batchH h] := rfl
  have hp3 : (dbOne h).sales = [] := rfl
  have hp4 : (dbOne h).sale_items = [] := rfl
  have hp5 : (dbOne h).stock_movements = [] := rfl
  have hp6 : (dbOne h).purchase_orders = [] := rfl
  have hp7 : (dbOne h).purchase_order_items = [] := rfl
  have hp8 : (dbOne h).nextSaleId = 1 := rfl
  have hp9 : (dbOne h).nextSaleItemId = 1 := rfl
  have hp10 : (dbOne h).nextInventoryId = 2 := rfl
  have hp11 : (dbOne h).nextMovementId = 1 := rfl
  refine ⟨?_, ?_, ?_, ?_, ?_⟩
  · norm_num [createSale, createSaleTx, createSaleLoop, commitSaleItems,
      newSaleRow, saleReq, saleLine, batchH, prodP, batchX,
      pinnedCandidate, addReserved, transaction, validPaymentMethods,
      Inventory.quantity_available, h1, hfil, hp1, hp2, hp3, hp4, hp5,
      hp6, hp7, hp8, hp9, hp10, hp11, dbSoldF, soldBatchF, soldSaleF,
      soldItemF]
    exact fun hcontra => absurd hcontra (by decide)
  all_goals
    norm_num [processRefund, processRefundTx, processRefundLoop, addOnHand,
      transaction, dbSoldF, soldSaleF, soldItemF, soldBatchF, batchX,
      prodP, refundReq, h2, Except.isOk, Except.toBool]

/-- C5 witness: the round trip with h = 10, q = 5 restores the batch to
(10, 0) and leaves the single (return, +5) movement summing to +5. -/
theorem sale_then_full_refund_round_trip_witness :
    createSale (saleReq 5) (dbOne 10) = (dbSoldF 10 5, .ok 1) ∧
    (processRefund 1 [refundReq 5] none none 9 (dbSoldF 10 5)).2.isOk
      = true ∧
    (processRefund 1 [refundReq 5] none none 9
      (dbSoldF 10 5)).1.inventory.map
      (fun i => (i.quantity_on_hand, i.quantity_reserved)) = [(10, 0)] ∧
    (processRefund 1 [refundReq 5] none none 9
      (dbSoldF 10 5)).1.stock_movements.map
      (fun m => (m.movement_type, m.quantity_change)) = [("return", 5)] ∧
    ((processRefund 1 [refundReq 5] none none 9
      (dbSoldF 10 5)).1.stock_movements.map
      StockMovement.quantity_change).sum = 5 :=
  sale_then_full_refund_round_trip 10 5 (by decide) (by decide)

/-- C5 counterexample: on the X/Y database, the 5-unit sale followed by
the full 5-unit refund does restore both batches to (10, 0) — but the
resulting movement trail is only ["return"], and the sum of its signed
deltas is +5, not the zero the sale/return pair would give. -/
theorem round_trip_movement_sum_is_plus_q :
    createSale (saleReq 5) dbXY = (dbSold, .ok 1) ∧
    (processRefund 1 [refundItem5] none none 9 dbSold).1.inventory.map
      (fun i => (i.quantity_on_hand, i.quantity_reserved))
      = [(10, 0), (10, 0)] ∧
    (processRefund 1 [refundItem5] none none 9 dbSold).1.stock_movements.map
      StockMovement.movement_type = ["return"] ∧
    ((processRefund 1 [refundItem5] none none 9 dbSold).1.stock_movements.map
      StockMovement.quantity_change).sum = 5 := by
  refine ⟨?_, ?_, ?_, ?_⟩
  · norm_num [createSale, createSaleTx, createSaleLoop, commitSaleItems,
      newSaleRow, saleReq, saleLine, dbXY, prodP, batchX, batchY,
      fifoCandidate, eligibleBatches, firstMinExpiry, pinnedCandidate,
      addReserved, transaction, validPaymentMethods,
      Inventory.quantity_available, dbSold, soldSale, soldItem, batchX5]
    exact fun hcontra => absurd hcontra (by decide)
  all_goals
    norm_num +decide [processRefund, processRefundTx, processRefundLoop,
      addOnHand, transaction, dbSold, soldSale, soldItem, batchX5, batchX,
      batchY, prodP, refundItem5, le_refl (5 : Rat)]

end PharmaFlow
